import Mathlib

/-!
Verification development for the high-stress alert pipeline
(`src/processing.py`, `src/agent.py`, `src/app.py`, `src/config.py`).

The Python code is shallowly embedded: pandas rows become a `Row`
structure of exact rationals, the external collaborators (the ONNX
classifier session, DynamoDB `table.put_item` / `table.query`, the
pandas timestamp formatter, the uuid generator) become explicit
function parameters, and every caught Python exception becomes an
`Except` / `Option` value.  All numeric data is modelled with `ℚ`
(the code stores exact `Decimal` values for exactly this reason).
-/

namespace StressAlerts

/-! ## Configuration (`src/config.py`) -/

/-- The constant `STRESS_THRESHOLD = 42` from `src/config.py`. -/
def STRESS_THRESHOLD : ℚ := 42

/-- The list `NUMERICAL_FEATURES` from `src/config.py`, in source order. -/
def NUMERICAL_FEATURES : List String :=
  ["temperature_celsius", "humidity_percent", "air_quality_index",
   "noise_level_db", "lighting_lux", "crowd_density", "sleep_hours",
   "mood_score"]

/-- The list `TRAINING_COLUMNS = NUMERICAL_FEATURES + [location_id_101 .. location_id_105]`
from `src/config.py`. -/
def TRAINING_COLUMNS : List String :=
  NUMERICAL_FEATURES ++
    ["location_id_101", "location_id_102", "location_id_103",
     "location_id_104", "location_id_105"]

/-- The value `RUNNING_LOCALLY = os.environ.get("RUNNING_LOCALLY", "False")` from
`src/config.py`: the environment variable is read as a *string*, with the
string `"False"` as the default when the variable is unset.  The argument
`env` is the raw value of the environment variable, `none` when unset. -/
def RUNNING_LOCALLY_value (env : Option String) : String :=
  env.getD "False"

/-- Python truthiness of a `str`: non-empty strings are truthy, so
`bool("False") = True`.  This is how `if not RUNNING_LOCALLY:` and
`if RUNNING_LOCALLY:` evaluate their condition in the source. -/
def pyStrTruthy (s : String) : Bool :=
  s ≠ ""

/-! ## Data model: one CSV row (a pandas row after
`pd.read_csv(file_path, parse_dates=["timestamp"])`).  The timestamp is
kept as its canonical string form; the numeric columns are exact
rationals. -/

structure Row where
  timestamp : String
  location_id : Int
  stress_level : ℚ
  temperature_celsius : ℚ
  humidity_percent : ℚ
  air_quality_index : ℚ
  noise_level_db : ℚ
  lighting_lux : ℚ
  crowd_density : ℚ
  sleep_hours : ℚ
  mood_score : ℚ
  deriving DecidableEq, Repr

/-- Column lookup `row[c]` for the numerical feature columns. -/
def numericalValue (r : Row) (c : String) : ℚ :=
  if c = "temperature_celsius" then r.temperature_celsius
  else if c = "humidity_percent" then r.humidity_percent
  else if c = "air_quality_index" then r.air_quality_index
  else if c = "noise_level_db" then r.noise_level_db
  else if c = "lighting_lux" then r.lighting_lux
  else if c = "crowd_density" then r.crowd_density
  else if c = "sleep_hours" then r.sleep_hours
  else if c = "mood_score" then r.mood_score
  else 0

/-! ## `load_and_filter_data` (`src/processing.py` lines 23-40)

`pd.read_csv` and its exceptions are external: the argument `loaded` is
`some rows` when the CSV was read successfully and `none` when reading
or parsing raised (the `except` branch, which returns `None`). -/

def load_and_filter_data (loaded : Option (List Row)) : Option (List Row) :=
  match loaded with
  | none => none
  | some df => some (df.filter (fun r => STRESS_THRESHOLD < r.stress_level))

/-! ## `run_inference` (`src/processing.py` lines 43-71) -/

/-- The single dummy column name `get_dummies` produces for one row:
`"location_id_" + str(location_id)` (prefix `location_id`). -/
def dummyCol (lid : Int) : String :=
  "location_id_" ++ toString lid

/-- The per-row model input built inside `run_inference`:
`processed_row = concat(single_row_df[NUMERICAL_FEATURES], location_dummies)`
then `final_input = processed_row.reindex(columns=TRAINING_COLUMNS, fill_value=0)`.
`reindex` selects each training column by name, taking the numerical value
for a numerical column, `1` for the single dummy column present, and the
fill value `0` for every absent column. -/
def featureVector (r : Row) : List ℚ :=
  TRAINING_COLUMNS.map (fun c =>
    if c ∈ NUMERICAL_FEATURES then numericalValue r c
    else if c = dummyCol r.location_id then 1 else 0)

/-- One row's featurize-and-classify attempt, the body of the `try` in
`run_inference`.  The ONNX session `sess.run` is external: `sess` maps the
feature vector to either a prediction (`ok`) or a raised exception
(`error`), covering failures of both featurization and inference. -/
def classifyRow (sess : List ℚ → Except String Int) (r : Row) : Except String Int :=
  sess (featureVector r)

/-- Returns `true` iff the row survives: classification succeeded and
`prediction_result == 1`. -/
def isPositive (sess : List ℚ → Except String Int) (r : Row) : Bool :=
  match classifyRow sess r with
  | .ok p => p == 1
  | .error _ => false

/-- Returns `true` iff the row's `try` body raised (the `except` branch ran). -/
def rowFailed (sess : List ℚ → Except String Int) (r : Row) : Bool :=
  match classifyRow sess r with
  | .ok _ => false
  | .error _ => true

/-- Outcome of `run_inference`: the surviving rows (`predictions`), the
number of rows whose failure was logged by the `except` branch, and the
number of loop iterations (rows attempted). -/
structure InferenceResult where
  predictions : List Row
  errorsLogged : Nat
  attempted : Nat
  deriving DecidableEq, Repr

/-- The `for index, row in dataframe.iterrows()` loop of `run_inference`:
each row is attempted; on success the row is appended iff the prediction
is `1`; on exception the error is logged and the loop continues
(`continue`).  The function is total: no exception escapes the loop. -/
def run_inference (sess : List ℚ → Except String Int) :
    List Row → InferenceResult
  | [] => ⟨[], 0, 0⟩
  | r :: rest =>
    let tail := run_inference sess rest
    match classifyRow sess r with
    | .ok p =>
      if p = 1 then
        { tail with predictions := r :: tail.predictions,
                    attempted := tail.attempted + 1 }
      else
        { tail with attempted := tail.attempted + 1 }
    | .error _ =>
      { tail with errorsLogged := tail.errorsLogged + 1,
                  attempted := tail.attempted + 1 }

/-! ## `store_predictions` (`src/processing.py` lines 74-115) -/

/-- The persisted DynamoDB item exactly as assembled in
`store_predictions`; `PredictedStressLabel` is written as the literal `1`. -/
structure AlertItem where
  PK : String
  SK : String
  UserID : String
  Timestamp : String
  SourceFile : String
  LocationID : Int
  OriginalStressLevel : ℚ
  PredictedStressLabel : Int
  SleepHours : ℚ
  MoodScore : ℚ
  NoiseLevelDB : ℚ
  deriving DecidableEq, Repr

/-- Python `os.path.basename` for POSIX paths: everything after the last `/`. -/
def basename (p : String) : String :=
  String.mk ((p.toList.reverse.takeWhile (fun c => c ≠ '/')).reverse)

/-- The `item` dictionary built for one confirmed row. -/
def mkItem (user_id source_filename timestamp_str : String) (r : Row) : AlertItem :=
  { PK := "SOURCEFILE#" ++ source_filename
    SK := "LOCATION#" ++ toString r.location_id ++ "#USERID#" ++ user_id
    UserID := user_id
    Timestamp := timestamp_str
    SourceFile := source_filename
    LocationID := r.location_id
    OriginalStressLevel := r.stress_level
    PredictedStressLabel := 1
    SleepHours := r.sleep_hours
    MoodScore := r.mood_score
    NoiseLevelDB := r.noise_level_db }

/-- Outcome of `store_predictions`: the returned counter `items_inserted`,
the list of `table.put_item` invocations actually issued (in order), and
the number of rows whose failure was logged. -/
structure StoreResult where
  items_inserted : Nat
  puts : List AlertItem
  errors : Nat
  deriving DecidableEq, Repr

/-- The `for row in predictions` loop of `store_predictions`.
`uuid i` is the uuid generated on iteration `i`; `fmtTs` is the external
`pd.to_datetime(...).strftime("%Y-%m-%d %H:%M:%S")` conversion, which may
raise; `put` is the external `table.put_item`, which may raise.  The
physical write is guarded by `if not RUNNING_LOCALLY:`, i.e. it is issued
only when the string `runningLocally` is *falsy*; `items_inserted` is
incremented whenever the iteration completes without an exception. -/
def storeLoop (runningLocally : String) (uuid : Nat → String)
    (fmtTs : String → Except String String)
    (put : AlertItem → Except String Unit)
    (source_filename : String) : List Row → Nat → StoreResult
  | [], _ => ⟨0, [], 0⟩
  | r :: rest, i =>
    let tail := storeLoop runningLocally uuid fmtTs put source_filename rest (i + 1)
    match fmtTs r.timestamp with
    | .error _ => { tail with errors := tail.errors + 1 }
    | .ok ts =>
      let item := mkItem (uuid i) source_filename ts r
      if pyStrTruthy runningLocally then
        { tail with items_inserted := tail.items_inserted + 1 }
      else
        match put item with
        | .ok _ =>
          { tail with items_inserted := tail.items_inserted + 1,
                      puts := item :: tail.puts }
        | .error _ =>
          { tail with errors := tail.errors + 1,
                      puts := item :: tail.puts }

/-- The function `store_predictions(predictions, source_file_path)` with its external
collaborators made explicit. -/
def store_predictions (runningLocally : String) (uuid : Nat → String)
    (fmtTs : String → Except String String)
    (put : AlertItem → Except String Unit)
    (predictions : List Row) (source_file_path : String) : StoreResult :=
  storeLoop runningLocally uuid fmtTs put (basename source_file_path) predictions 0

/-! ## Timestamp parsing and rendering (`src/app.py` lines 62-66)

`datetime.strptime(item["Timestamp"], "%Y-%m-%d %H:%M:%S")` is modelled by
an executable parser over ASCII characters: `%Y` matches exactly four
digits, `%m %d %H %M %S` match one or two digits greedily, the space in
the format matches one or more whitespace characters, the whole string
must be consumed, and the resulting fields must form a valid calendar
datetime (the `datetime` constructor's ranges).  `isoformat() + "Z"` is
modelled by zero-padded rendering with a `T` separator and a trailing
`Z`. -/

structure DateTuple where
  y : Nat
  mo : Nat
  d : Nat
  h : Nat
  mi : Nat
  s : Nat
  deriving DecidableEq, Repr

/-- A decimal digit character. -/
def digitCh (d : Nat) : Char :=
  Char.ofNat (48 + d)

/-- Value of an ASCII digit character, `none` for a non-digit. -/
def readDigit (c : Char) : Option Nat :=
  if c.isDigit then some (c.toNat - 48) else none

/-- Read exactly four digits (the `%Y` directive). -/
def read4 : List Char → Option (Nat × List Char)
  | c1 :: c2 :: c3 :: c4 :: cs => do
    let a ← readDigit c1
    let b ← readDigit c2
    let c ← readDigit c3
    let d ← readDigit c4
    pure (((a * 10 + b) * 10 + c) * 10 + d, cs)
  | _ => none

/-- Read one or two digits, greedily (the `%m %d %H %M %S` directives,
whose regexes match at most two digits and are followed by a non-digit
or end of string in this format). -/
def read12 : List Char → Option (Nat × List Char)
  | [] => none
  | c :: cs =>
    match readDigit c with
    | none => none
    | some d1 =>
      match cs with
      | [] => some (d1, [])
      | c2 :: cs2 =>
        match readDigit c2 with
        | some d2 => some (10 * d1 + d2, cs2)
        | none => some (d1, cs)

/-- Match one literal character. -/
def expectChar (c : Char) : List Char → Option (List Char)
  | x :: cs => if x = c then some cs else none
  | [] => none

/-- Python `\s` on the ASCII range. -/
def isPySpace (c : Char) : Bool :=
  c = ' ' || c = '\t' || c = '\n' || c = '\r' || c = '\x0b' || c = '\x0c'

/-- Drop leading whitespace. -/
def skipWs : List Char → List Char
  | c :: cs => if isPySpace c then skipWs cs else c :: cs
  | [] => []

/-- Match one-or-more whitespace characters (a whitespace run in the
format string becomes `\s+` in the strptime regex). -/
def expectWs : List Char → Option (List Char)
  | c :: cs => if isPySpace c then some (skipWs cs) else none
  | [] => none

/-- The `datetime` constructor's validity checks on the parsed fields
(`MINYEAR = 1`; seconds above 59 are rejected by the constructor even
though the `%S` regex admits 60 and 61). -/
def isLeap (y : Nat) : Bool :=
  (y % 4 == 0 && y % 100 != 0) || y % 400 == 0

def daysInMonth (y mo : Nat) : Nat :=
  if mo = 2 then (if isLeap y then 29 else 28)
  else if mo = 4 ∨ mo = 6 ∨ mo = 9 ∨ mo = 11 then 30
  else 31

def validTuple (t : DateTuple) : Bool :=
  decide (1 ≤ t.y ∧ t.y ≤ 9999 ∧ 1 ≤ t.mo ∧ t.mo ≤ 12 ∧ 1 ≤ t.d ∧
    t.d ≤ daysInMonth t.y t.mo ∧ t.h ≤ 23 ∧ t.mi ≤ 59 ∧ t.s ≤ 59)

/-- Python `datetime.strptime(s, "%Y-%m-%d %H:%M:%S")`: `some` fields on
success, `none` when the call raises `ValueError`.  The directives are
matched left to right, the whole string must be consumed, and the fields
must pass the `datetime` constructor's validation. -/
def strptimeTs (cs : List Char) : Option DateTuple :=
  match read4 cs with
  | none => none
  | some (y, cs1) =>
    match expectChar '-' cs1 with
    | none => none
    | some cs2 =>
      match read12 cs2 with
      | none => none
      | some (mo, cs3) =>
        match expectChar '-' cs3 with
        | none => none
        | some cs4 =>
          match read12 cs4 with
          | none => none
          | some (d, cs5) =>
            match expectWs cs5 with
            | none => none
            | some cs6 =>
              match read12 cs6 with
              | none => none
              | some (h, cs7) =>
                match expectChar ':' cs7 with
                | none => none
                | some cs8 =>
                  match read12 cs8 with
                  | none => none
                  | some (mi, cs9) =>
                    match expectChar ':' cs9 with
                    | none => none
                    | some cs10 =>
                      match read12 cs10 with
                      | none => none
                      | some (s, cs11) =>
                        if cs11 = [] then
                          if validTuple ⟨y, mo, d, h, mi, s⟩ then
                            some ⟨y, mo, d, h, mi, s⟩
                          else none
                        else none

/-- Zero-pad to two digits. -/
def pad2 (n : Nat) : List Char :=
  [digitCh (n / 10), digitCh (n % 10)]

/-- Zero-pad to four digits. -/
def pad4 (n : Nat) : List Char :=
  [digitCh (n / 1000), digitCh (n / 100 % 10), digitCh (n / 10 % 10), digitCh (n % 10)]

/-- The character list `strftime("%Y-%m-%d %H:%M:%S")` produces. -/
def canonicalChars (t : DateTuple) : List Char :=
  pad4 t.y ++ '-' :: pad2 t.mo ++ '-' :: pad2 t.d ++ ' ' :: pad2 t.h ++
    ':' :: pad2 t.mi ++ ':' :: pad2 t.s

/-- The canonical stored timestamp string `"YYYY-MM-DD HH:MM:SS"`. -/
def canonicalTs (t : DateTuple) : String :=
  String.mk (canonicalChars t)

/-- Python `datetime.isoformat()` for a whole-second datetime:
`"YYYY-MM-DDTHH:MM:SS"`. -/
def isoTs (t : DateTuple) : String :=
  String.mk (pad4 t.y ++ '-' :: pad2 t.mo ++ '-' :: pad2 t.d ++ 'T' :: pad2 t.h ++
    ':' :: pad2 t.mi ++ ':' :: pad2 t.s)

/-! ## The query path `get_alerts` (`src/app.py` lines 20-89) -/

/-- A stored DynamoDB item as the query path reads it.  Only the fields
the transform touches are modelled; each is optional because the code
uses `item.get(...)` with defaults (and direct indexing for `Timestamp`,
whose `KeyError` is caught together with the parse `ValueError`). -/
structure StoredItem where
  Timestamp : Option String
  SourceFile : Option String
  OriginalStressLevel : Option ℚ
  deriving DecidableEq, Repr

/-- Python `int()` applied to an exact `Decimal`: truncation toward zero. -/
def intOfRat (q : ℚ) : Int :=
  Int.tdiv q.num q.den

/-- One element of the response's `alerts` array. -/
structure AlertOut where
  record_id : String
  stress_score : Int
  timestamp : Option String
  deriving DecidableEq, Repr

/-- The per-item transform in `get_alerts`: `record_id` is
`item.get("SourceFile", "unknown-source")`, `stress_score` is
`int(item.get("OriginalStressLevel", 0))`, and `timestamp` is
`strptime(item["Timestamp"]).isoformat() + "Z"`, or `None` when the
lookup or the parse raises (`except (KeyError, ValueError)`). -/
def transformItem (item : StoredItem) : AlertOut :=
  { record_id := item.SourceFile.getD "unknown-source"
    stress_score := intOfRat (item.OriginalStressLevel.getD 0)
    timestamp :=
      match item.Timestamp with
      | none => none
      | some ts => (strptimeTs ts.toList).map (fun t => isoTs t ++ "Z") }

/-- The `while True:` pagination loop of `get_alerts`, run against a
backing store whose response to the `i`-th query is `pages[i]`, carrying a
`LastEvaluatedKey` exactly when further pages remain.  An empty `pages`
list stands for a store whose single response has no items.  Returns the
accumulated `all_items` and the number of `table.query` calls issued. -/
def queryAllPages : List (List StoredItem) → List StoredItem × Nat
  | [] => ([], 1)
  | [p] => (p, 1)
  | p :: q :: rest =>
    let t := queryAllPages (q :: rest)
    (p ++ t.1, t.2 + 1)

/-- The inbound API Gateway event: `event.get("queryStringParameters")`
is `None` or a dictionary, modelled as an association list. -/
structure Event where
  queryStringParameters : Option (List (String × String))
  deriving DecidableEq, Repr

/-- Outcome of `get_alerts`: HTTP status, the error body or the `alerts`
body, and the number of `table.query` calls performed. -/
structure GetAlertsResult where
  statusCode : Nat
  errorBody : Option String
  alertsBody : Option (List AlertOut)
  reads : Nat
  deriving DecidableEq, Repr

/-- The handler `get_alerts(event)` with the backing store made explicit: `store pk`
is the page sequence DynamoDB returns for partition key `pk`.
`query_params = event.get("queryStringParameters") or {}`; a missing
`source_file` key returns `400` before any query; otherwise the
pagination loop runs for `PK = "SOURCEFILE#" + source_file` and the
transformed items are returned with status `200`.  (The outer
`except` / `500` branch only fires when the backing store itself raises,
which the total model does not represent.) -/
def get_alerts (event : Event) (store : String → List (List StoredItem)) :
    GetAlertsResult :=
  let query_params := event.queryStringParameters.getD []
  match query_params.lookup "source_file" with
  | none =>
    { statusCode := 400
      errorBody := some "The 'source_file' query parameter is required."
      alertsBody := none
      reads := 0 }
  | some source_file =>
    let pk_to_query := "SOURCEFILE#" ++ source_file
    let fetched := queryAllPages (store pk_to_query)
    { statusCode := 200
      errorBody := none
      alertsBody := some (fetched.1.map transformItem)
      reads := fetched.2 }

/-! ## The orchestrator `Agent.run` (`src/agent.py`)

The three pipeline stages are parameters so that the `try/except/finally`
structure can be studied under any stage outcome: each stage either
returns (`ok`) or raises (`error`), and `load` additionally returns
`none` when `load_and_filter_data` reported a load failure.  (As written,
`load_and_filter_data` and the two loops catch their own exceptions, but
`Agent.run`'s `except` clause guards all of them regardless.)  The trace
is modelled by its ordered message strings. -/

def msgStarted : String := "Agent run started."
def msgInitLoad : String := "Initiating action: Load and filter data."
def msgLoadFailed : String := "Observation: Data loading failed. Halting run."
def msgEmpty : String :=
  "Observation: No potential high-stress users found after filtering. Halting run."
def msgLoaded : String := "Observation: Data loaded and filtered successfully."
def msgInitInfer : String := "Initiating action: Run model inference."
def msgInferDone : String := "Observation: Model inference complete."
def msgInitStore : String := "Initiating action: Store predictions in DynamoDB."
def msgStoreDone : String := "Observation: Storage complete."
def msgNoPredictions : String := "Observation: No high-stress predictions to store."
def msgError : String := "An unexpected error occurred during the run."
def msgFinished : String := "Agent run finished."

/-- Result of one `Agent.run` invocation: the full trace (in append
order), the trace as emitted by the `finally` block's print, and whether
`run_inference` / `store_predictions` were invoked at all. -/
structure AgentResult where
  trace : List String
  emitted : List String
  inferCalled : Bool
  storeCalled : Bool
  deriving DecidableEq, Repr

/-- The `try`/`except` part of `Agent.run`: the trace entries appended
before the `finally` block, plus the two invocation flags. -/
def agentTryBody (load : Except String (Option (List Row)))
    (infer : List Row → Except String (List Row))
    (store : List Row → Except String Nat) :
    List String × Bool × Bool :=
  let t0 := [msgStarted, msgInitLoad]
  match load with
  | .error _ => (t0 ++ [msgError], false, false)
  | .ok none => (t0 ++ [msgLoadFailed], false, false)
  | .ok (some df) =>
    if df.isEmpty then (t0 ++ [msgEmpty], false, false)
    else
      let t1 := t0 ++ [msgLoaded, msgInitInfer]
      match infer df with
      | .error _ => (t1 ++ [msgError], true, false)
      | .ok preds =>
        let t2 := t1 ++ [msgInferDone]
        if preds.isEmpty then (t2 ++ [msgNoPredictions], true, false)
        else
          let t3 := t2 ++ [msgInitStore]
          match store preds with
          | .error _ => (t3 ++ [msgError], true, true)
          | .ok _ => (t3 ++ [msgStoreDone], true, true)

/-- Whether the `except` clause of `Agent.run` fires for these stage
outcomes. -/
def runErrored (load : Except String (Option (List Row)))
    (infer : List Row → Except String (List Row))
    (store : List Row → Except String Nat) : Bool :=
  match load with
  | .error _ => true
  | .ok none => false
  | .ok (some df) =>
    if df.isEmpty then false
    else
      match infer df with
      | .error _ => true
      | .ok preds =>
        if preds.isEmpty then false
        else
          match store preds with
          | .error _ => true
          | .ok _ => false

/-- The orchestrator `Agent.run`: the `try`/`except` body followed by the `finally`
block, which appends the final log entry and then prints the whole
trace.  The function is total: every stage outcome, including a raised
exception, reaches the `finally` block. -/
def agentRun (load : Except String (Option (List Row)))
    (infer : List Row → Except String (List Row))
    (store : List Row → Except String Nat) : AgentResult :=
  let body := agentTryBody load infer store
  let fullTrace := body.1 ++ [msgFinished]
  { trace := fullTrace
    emitted := fullTrace
    inferCalled := body.2.1
    storeCalled := body.2.2 }

/-- A concrete row used to instantiate universally quantified theorems. -/
def exampleRow : Row :=
  { timestamp := "2025-06-01 12:30:45"
    location_id := 101
    stress_level := 77
    temperature_celsius := 21
    humidity_percent := 40
    air_quality_index := 12
    noise_level_db := 55
    lighting_lux := 300
    crowd_density := 3
    sleep_hours := 6
    mood_score := 4 }

/-! ## Helper lemmas -/

theorem readDigit_digitCh (d : Nat) (hd : d < 10) :
    readDigit (digitCh d) = some d := by
  interval_cases d <;> decide

theorem isPySpace_digitCh (d : Nat) (hd : d < 10) :
    isPySpace (digitCh d) = false := by
  interval_cases d <;> decide

theorem read4_digits (n : Nat) (hn : n < 10000) (cs : List Char) :
    read4 (digitCh (n / 1000) :: digitCh (n / 100 % 10) :: digitCh (n / 10 % 10) ::
      digitCh (n % 10) :: cs) = some (n, cs) := by
  have h1 := readDigit_digitCh (n / 1000) (by omega)
  have h2 := readDigit_digitCh (n / 100 % 10) (by omega)
  have h3 := readDigit_digitCh (n / 10 % 10) (by omega)
  have h4 := readDigit_digitCh (n % 10) (by omega)
  simp only [read4, h1, h2, h3, h4, Option.bind_eq_bind, Option.some_bind,
    Option.pure_def, Option.some.injEq, Prod.mk.injEq, and_true]
  omega

theorem read12_digits (n : Nat) (hn : n < 100) (cs : List Char) :
    read12 (digitCh (n / 10) :: digitCh (n % 10) :: cs) = some (n, cs) := by
  have h1 := readDigit_digitCh (n / 10) (by omega)
  have h2 := readDigit_digitCh (n % 10) (by omega)
  simp only [read12, h1, h2, Option.some.injEq, Prod.mk.injEq, and_true]
  omega

theorem expectChar_head (c : Char) (cs : List Char) :
    expectChar c (c :: cs) = some cs := by
  simp [expectChar]

theorem expectWs_digit (d : Nat) (hd : d < 10) (cs : List Char) :
    expectWs (' ' :: digitCh d :: cs) = some (digitCh d :: cs) := by
  have h := isPySpace_digitCh d hd
  have hsp : isPySpace ' ' = true := by decide
  simp [expectWs, skipWs, h, hsp]

theorem daysInMonth_le (y mo : Nat) : daysInMonth y mo ≤ 31 := by
  unfold daysInMonth
  split <;> [split <;> omega; (split <;> omega)]

/-- Parser correctness on canonical strftime output: a stored timestamp
written by `store_predictions` parses back to its fields. -/
theorem strptimeTs_canonical (t : DateTuple) (hv : validTuple t = true) :
    strptimeTs (canonicalTs t).toList = some t := by
  have hb := of_decide_eq_true hv
  obtain ⟨hy1, hy2, hmo1, hmo2, hd1, hd2, hh, hmi, hs⟩ := hb
  have hd31 : t.d ≤ 31 := hd2.trans (daysInMonth_le t.y t.mo)
  have rY := read4_digits t.y (by omega)
  have rMo := read12_digits t.mo (by omega)
  have rD := read12_digits t.d (by omega)
  have rH := read12_digits t.h (by omega)
  have rMi := read12_digits t.mi (by omega)
  have rS := read12_digits t.s (by omega)
  have eW := expectWs_digit (t.h / 10) (by omega)
  have hts : (canonicalTs t).toList = canonicalChars t := rfl
  rw [hts]
  simp only [canonicalChars, pad4, pad2, List.cons_append, List.nil_append,
    List.append_assoc, strptimeTs, rY, expectChar_head, rMo, rD, eW, rH, rMi, rS, hv]
  simp

/-- The pagination loop materializes the concatenation of all pages and
issues one query per page. -/
theorem queryAllPages_join (pages : List (List StoredItem)) (h : pages ≠ []) :
    queryAllPages pages = (pages.flatten, pages.length) := by
  induction pages with
  | nil => exact absurd rfl h
  | cons p rest ih =>
    cases rest with
    | nil => simp [queryAllPages]
    | cons q rest2 =>
      have hr := ih (by simp)
      simp [queryAllPages, hr]

theorem lookup_eq_none_of_not_mem (l : List (String × String)) (k : String)
    (h : k ∉ l.map Prod.fst) : l.lookup k = none := by
  induction l with
  | nil => rfl
  | cons a rest ih =>
    simp only [List.map_cons, List.mem_cons] at h
    push_neg at h
    have hk : (k == a.1) = false := beq_eq_false_iff_ne.mpr h.1
    simp [List.lookup, hk, ih h.2]

theorem run_inference_predictions (sess : List ℚ → Except String Int)
    (df : List Row) :
    (run_inference sess df).predictions = df.filter (isPositive sess) := by
  induction df with
  | nil => rfl
  | cons r rest ih =>
    simp only [run_inference, List.filter_cons]
    cases h : classifyRow sess r with
    | error e => simp [isPositive, h, ih]
    | ok p =>
      by_cases hp : p = 1
      · simp [isPositive, h, hp, ih]
      · have : (p == 1) = false := beq_eq_false_iff_ne.mpr hp
        simp [isPositive, h, hp, this, ih]

theorem run_inference_errors (sess : List ℚ → Except String Int)
    (df : List Row) :
    (run_inference sess df).errorsLogged = (df.filter (rowFailed sess)).length := by
  induction df with
  | nil => rfl
  | cons r rest ih =>
    simp only [run_inference, List.filter_cons]
    cases h : classifyRow sess r with
    | error e => simp [rowFailed, h, ih]
    | ok p =>
      by_cases hp : p = 1 <;> simp [rowFailed, h, hp, ih]

theorem run_inference_attempted (sess : List ℚ → Except String Int)
    (df : List Row) :
    (run_inference sess df).attempted = df.length := by
  induction df with
  | nil => rfl
  | cons r rest ih =>
    simp only [run_inference, List.length_cons]
    cases h : classifyRow sess r with
    | error e => simp [h, ih]
    | ok p =>
      by_cases hp : p = 1 <;> simp [h, hp, ih]

theorem storeLoop_puts_label (runningLocally : String) (uuid : Nat → String)
    (fmtTs : String → Except String String)
    (put : AlertItem → Except String Unit) (source_filename : String)
    (preds : List Row) (i : Nat) :
    ((storeLoop runningLocally uuid fmtTs put source_filename preds i).puts.all
      (fun it => it.PredictedStressLabel == 1)) = true := by
  induction preds generalizing i with
  | nil => rfl
  | cons r rest ih =>
    simp only [storeLoop]
    cases h : fmtTs r.timestamp with
    | error e => simpa using ih (i + 1)
    | ok ts =>
      by_cases hl : pyStrTruthy runningLocally
      · simpa [hl] using ih (i + 1)
      · cases hp : put (mkItem (uuid i) source_filename ts r) with
        | ok u =>
          simp only [mkItem] at hp
          simpa [hl, hp, mkItem] using ih (i + 1)
        | error e =>
          simp only [mkItem] at hp
          simpa [hl, hp, mkItem] using ih (i + 1)

/-! ## Claim theorems -/

/-- C7: for every loaded batch, `load_and_filter_data` keeps exactly the
rows whose `stress_level` strictly exceeds the threshold 42: a row is in
the filtered result iff it is in the batch and its stress level exceeds
`STRESS_THRESHOLD`; in particular a row at exactly 42 is excluded and a
row above 42 is included. -/
theorem C7_filter_strictly_above_threshold (rows : List Row) (r : Row) :
    load_and_filter_data (some rows)
        = some (rows.filter (fun x => STRESS_THRESHOLD < x.stress_level)) ∧
    (r ∈ (load_and_filter_data (some rows)).getD []
        ↔ r ∈ rows ∧ STRESS_THRESHOLD < r.stress_level) ∧
    STRESS_THRESHOLD = 42 := by
  refine ⟨rfl, ?_, rfl⟩
  simp [load_and_filter_data, List.mem_filter]

/-- C3: for every filtered batch and every classifier behavior,
`run_inference` attempts every one of the N rows, logs a failure for
exactly the rows whose featurization/inference raised, never propagates
an exception (it is a total function into `InferenceResult`), and
returns exactly the surviving confirmed-positive rows in their original
relative order. -/
theorem C3_per_row_isolation (sess : List ℚ → Except String Int) (df : List Row) :
    (run_inference sess df).attempted = df.length ∧
    (run_inference sess df).errorsLogged = (df.filter (rowFailed sess)).length ∧
    (run_inference sess df).predictions = df.filter (isPositive sess) ∧
    (df.filter (rowFailed sess)).length
        + (df.filter (fun r => ! rowFailed sess r)).length = df.length :=
  ⟨run_inference_attempted sess df, run_inference_errors sess df,
   run_inference_predictions sess df,
   (List.length_eq_length_filter_add (rowFailed sess)).symm⟩

/-- C10: every item `store_predictions` passes to `table.put_item`
carries `PredictedStressLabel = 1` (the literal written by the code),
and `run_inference` only ever passes along rows whose classification
returned exactly 1 — so no stored record can carry label 0. -/
theorem C10_stored_label_always_one (runningLocally : String)
    (uuid : Nat → String) (fmtTs : String → Except String String)
    (put : AlertItem → Except String Unit) (preds : List Row)
    (source_file_path : String) (sess : List ℚ → Except String Int)
    (df : List Row) :
    ((store_predictions runningLocally uuid fmtTs put preds source_file_path).puts.all
        (fun it => it.PredictedStressLabel == 1)) = true ∧
    ((run_inference sess df).predictions.all (fun r => isPositive sess r)) = true := by
  constructor
  · exact storeLoop_puts_label runningLocally uuid fmtTs put
      (basename source_file_path) preds 0
  · rw [run_inference_predictions]
    simp only [List.all_eq_true]
    intro r hr
    exact (List.mem_filter.mp hr).2

/-- C1 (code evaluation): with the `RUNNING_LOCALLY` environment
variable unset — dry-run/local mode not configured — `config.py` yields
the string `"False"`, which is truthy in Python, so `store_predictions`
issues no physical `table.put_item` call for a confirmed-positive row
while still counting it in `items_inserted`; the same happens when the
variable is set to `"True"`, and a physical write happens only when the
variable is set to the empty string. -/
theorem C1_unset_env_skips_physical_write :
    RUNNING_LOCALLY_value none = "False" ∧
    pyStrTruthy (RUNNING_LOCALLY_value none) = true ∧
    (store_predictions (RUNNING_LOCALLY_value none) (fun _ => "u0")
        (fun t => .ok t) (fun _ => .ok ()) [exampleRow] "batch.csv").puts = [] ∧
    (store_predictions (RUNNING_LOCALLY_value none) (fun _ => "u0")
        (fun t => .ok t) (fun _ => .ok ()) [exampleRow] "batch.csv").items_inserted = 1 ∧
    (store_predictions (RUNNING_LOCALLY_value (some "True")) (fun _ => "u0")
        (fun t => .ok t) (fun _ => .ok ()) [exampleRow] "batch.csv").puts = [] ∧
    (store_predictions (RUNNING_LOCALLY_value (some "True")) (fun _ => "u0")
        (fun t => .ok t) (fun _ => .ok ()) [exampleRow] "batch.csv").items_inserted = 1 ∧
    (store_predictions (RUNNING_LOCALLY_value (some "")) (fun _ => "u0")
        (fun t => .ok t) (fun _ => .ok ()) [exampleRow] "batch.csv").puts
      = [mkItem "u0" "batch.csv" exampleRow.timestamp exampleRow] := by
  refine ⟨rfl, rfl, rfl, rfl, rfl, rfl, rfl⟩

/-- C6: when the batch fails to load (`load_and_filter_data` returns
`None`) or loads with an empty filtered set, `Agent.run` halts without
error: inference and storage are never invoked, the trace ends with the
final log entry, no error entry is logged, and the two cases are
distinguished only by their trace content. -/
theorem C6_early_halt_terminal_success (infer : List Row → Except String (List Row))
    (store : List Row → Except String Nat) :
    (agentRun (.ok (load_and_filter_data none)) infer store).inferCalled = false ∧
    (agentRun (.ok (load_and_filter_data none)) infer store).storeCalled = false ∧
    (agentRun (.ok (load_and_filter_data none)) infer store).trace.getLast?
        = some msgFinished ∧
    msgError ∉ (agentRun (.ok (load_and_filter_data none)) infer store).trace ∧
    msgLoadFailed ∈ (agentRun (.ok (load_and_filter_data none)) infer store).trace ∧
    (agentRun (.ok (some [])) infer store).inferCalled = false ∧
    (agentRun (.ok (some [])) infer store).storeCalled = false ∧
    (agentRun (.ok (some [])) infer store).trace.getLast? = some msgFinished ∧
    msgError ∉ (agentRun (.ok (some [])) infer store).trace ∧
    msgEmpty ∈ (agentRun (.ok (some [])) infer store).trace ∧
    (agentRun (.ok (load_and_filter_data none)) infer store).trace
        ≠ (agentRun (.ok (some [])) infer store).trace := by
  refine ⟨rfl, rfl, rfl, ?_, ?_, rfl, rfl, rfl, ?_, ?_, ?_⟩ <;>
    simp [agentRun, agentTryBody, load_and_filter_data, msgStarted, msgInitLoad,
      msgLoadFailed, msgEmpty, msgError, msgFinished]

/-- C2: for every source filename and every backing store answering with
K pages, `get_alerts` concatenates all K pages' items in page order and
issues exactly K `table.query` reads, stopping exactly when a page
carries no continuation token. -/
theorem C2_pagination_exhausts_all_pages (sf : String)
    (qs : List (String × String)) (store : String → List (List StoredItem))
    (hq : qs.lookup "source_file" = some sf)
    (hne : store ("SOURCEFILE#" ++ sf) ≠ []) :
    (get_alerts ⟨some qs⟩ store).reads = (store ("SOURCEFILE#" ++ sf)).length ∧
    (get_alerts ⟨some qs⟩ store).alertsBody
        = some ((store ("SOURCEFILE#" ++ sf)).flatten.map transformItem) ∧
    (get_alerts ⟨some qs⟩ store).statusCode = 200 := by
  simp [get_alerts, hq, queryAllPages_join _ hne]

/-- C2 witness: a three-page store (last page empty) is read three times
and both non-empty pages' items appear, in order. -/
theorem C2_pagination_witness :
    (get_alerts ⟨some [("source_file", "f.csv")]⟩
        (fun _ => [[⟨some "2025-06-01 12:30:45", some "f.csv", some 77⟩],
                   [⟨some "bad", some "f.csv", some 8⟩], []])).reads = 3 ∧
    (get_alerts ⟨some [("source_file", "f.csv")]⟩
        (fun _ => [[⟨some "2025-06-01 12:30:45", some "f.csv", some 77⟩],
                   [⟨some "bad", some "f.csv", some 8⟩], []])).alertsBody
      = some [transformItem ⟨some "2025-06-01 12:30:45", some "f.csv", some 77⟩,
              transformItem ⟨some "bad", some "f.csv", some 8⟩] := by
  have h := C2_pagination_exhausts_all_pages "f.csv" [("source_file", "f.csv")]
    (fun _ => [[⟨some "2025-06-01 12:30:45", some "f.csv", some 77⟩],
               [⟨some "bad", some "f.csv", some 8⟩], []]) rfl (by decide)
  refine ⟨?_, ?_⟩
  · rw [h.1]
    rfl
  · rw [h.2.1]
    rfl

/-- C5: any query event without a `source_file` key in its query
parameters gets status 400 (not 404) with the missing-parameter error
body, and zero reads are issued against the backing store. -/
theorem C5_missing_param_no_reads (event : Event)
    (store : String → List (List StoredItem))
    (h : "source_file" ∉ (event.queryStringParameters.getD []).map Prod.fst) :
    (get_alerts event store).statusCode = 400 ∧
    (get_alerts event store).errorBody
        = some "The 'source_file' query parameter is required." ∧
    (get_alerts event store).alertsBody = none ∧
    (get_alerts event store).reads = 0 := by
  have hl := lookup_eq_none_of_not_mem _ _ h
  simp [get_alerts, hl]

/-- C5 witness: a request with absent query parameters. -/
theorem C5_missing_param_witness :
    (get_alerts ⟨none⟩ (fun _ => [[⟨none, none, none⟩]])).statusCode = 400 ∧
    (get_alerts ⟨none⟩ (fun _ => [[⟨none, none, none⟩]])).reads = 0 := by
  have h := C5_missing_param_no_reads ⟨none⟩ (fun _ => [[⟨none, none, none⟩]])
    (by simp)
  exact ⟨h.1, h.2.2.2⟩

/-- C8: for every row the per-row model input has the same fixed length
13 and fixed column order — the 8 numerical features in order followed
by the 5 known location columns — and a row whose location id is outside
the known set yields all-zero location columns (the construction is a
total function: it neither raises nor drops the row). -/
theorem C8_feature_vector_fixed_shape (r : Row) :
    (featureVector r).length = 13 ∧
    (featureVector r).take 8 = NUMERICAL_FEATURES.map (numericalValue r) ∧
    (dummyCol r.location_id ∉ TRAINING_COLUMNS →
      (featureVector r).drop 8 = [0, 0, 0, 0, 0]) := by
  refine ⟨?_, ?_, ?_⟩
  · simp [featureVector, TRAINING_COLUMNS, NUMERICAL_FEATURES]
  · simp [featureVector, TRAINING_COLUMNS, NUMERICAL_FEATURES]
  · intro h
    have h1 : "location_id_101" ≠ dummyCol r.location_id := fun he =>
      h (by rw [← he]; decide)
    have h2 : "location_id_102" ≠ dummyCol r.location_id := fun he =>
      h (by rw [← he]; decide)
    have h3 : "location_id_103" ≠ dummyCol r.location_id := fun he =>
      h (by rw [← he]; decide)
    have h4 : "location_id_104" ≠ dummyCol r.location_id := fun he =>
      h (by rw [← he]; decide)
    have h5 : "location_id_105" ≠ dummyCol r.location_id := fun he =>
      h (by rw [← he]; decide)
    simp [featureVector, TRAINING_COLUMNS, NUMERICAL_FEATURES, h1, h2, h3, h4, h5]

/-- C8 witness: a row with the unknown location id 999 still yields a
13-wide vector with all-zero location columns. -/
theorem C8_feature_vector_witness :
    (featureVector { exampleRow with location_id := 999 }).length = 13 ∧
    (featureVector { exampleRow with location_id := 999 }).drop 8
      = [0, 0, 0, 0, 0] := by
  have h := C8_feature_vector_fixed_shape { exampleRow with location_id := 999 }
  exact ⟨h.1, h.2.2 (by decide)⟩

/-- C9: for every stage behavior, including any stage raising an
exception, `Agent.run` logs the error into the trace exactly when a
stage raised, still reaches its final log entry, and the full trace is
emitted unconditionally by the terminating step. -/
theorem C9_trace_always_flushed (load : Except String (Option (List Row)))
    (infer : List Row → Except String (List Row))
    (store : List Row → Except String Nat) :
    (agentRun load infer store).trace.getLast? = some msgFinished ∧
    (agentRun load infer store).emitted = (agentRun load infer store).trace ∧
    (msgError ∈ (agentRun load infer store).trace
        ↔ runErrored load infer store = true) := by
  refine ⟨?_, rfl, ?_⟩
  · show ((agentTryBody load infer store).1 ++ [msgFinished]).getLast? = some msgFinished
    rw [List.getLast?_concat]
  · cases load with
    | error e =>
      simp [agentRun, agentTryBody, runErrored, msgStarted, msgInitLoad, msgError,
        msgFinished]
    | ok o =>
      cases o with
      | none =>
        simp [agentRun, agentTryBody, runErrored, msgStarted, msgInitLoad,
          msgLoadFailed, msgError, msgFinished]
      | some df =>
        by_cases hdf : df.isEmpty
        · simp [agentRun, agentTryBody, runErrored, hdf, msgStarted, msgInitLoad,
            msgEmpty, msgError, msgFinished]
        · cases hi : infer df with
          | error e =>
            simp [agentRun, agentTryBody, runErrored, hdf, hi, msgStarted,
              msgInitLoad, msgLoaded, msgInitInfer, msgError, msgFinished]
          | ok preds =>
            by_cases hp : preds.isEmpty
            · simp [agentRun, agentTryBody, runErrored, hdf, hi, hp, msgStarted,
                msgInitLoad, msgLoaded, msgInitInfer, msgInferDone,
                msgNoPredictions, msgError, msgFinished]
            · cases hs : store preds with
              | error e =>
                simp [agentRun, agentTryBody, runErrored, hdf, hi, hp, hs,
                  msgStarted, msgInitLoad, msgLoaded, msgInitInfer, msgInferDone,
                  msgInitStore, msgError, msgFinished]
              | ok n =>
                simp [agentRun, agentTryBody, runErrored, hdf, hi, hp, hs,
                  msgStarted, msgInitLoad, msgLoaded, msgInitInfer, msgInferDone,
                  msgInitStore, msgStoreDone, msgError, msgFinished]

/-- C4: the query transform returns the stored source filename as
`record_id` (never the alert/user id), the integer conversion of the
stored exact stress score as `stress_score`, and the ISO-8601 rendering
with trailing `Z` of the parsed stored timestamp; a canonical stored
timestamp parses back exactly, an unparseable timestamp yields a null
`timestamp` field, and the request as a whole still returns 200. -/
theorem C4_query_transform_contract (f ts : String) (q : ℚ) (t : DateTuple)
    (qs : List (String × String)) (sf : String)
    (store : String → List (List StoredItem))
    (hq : qs.lookup "source_file" = some sf)
    (hv : validTuple t = true) :
    (transformItem ⟨some ts, some f, some q⟩).record_id = f ∧
    (transformItem ⟨some ts, some f, some q⟩).stress_score = intOfRat q ∧
    (transformItem ⟨some ts, some f, some q⟩).timestamp
        = (strptimeTs ts.toList).map (fun u => isoTs u ++ "Z") ∧
    (transformItem ⟨some (canonicalTs t), some f, some q⟩).timestamp
        = some (isoTs t ++ "Z") ∧
    (strptimeTs ts.toList = none →
      (transformItem ⟨some ts, some f, some q⟩).timestamp = none) ∧
    (get_alerts ⟨some qs⟩ store).statusCode = 200 := by
  refine ⟨rfl, rfl, rfl, ?_, ?_, ?_⟩
  · have hc : strptimeTs (canonicalTs t).data = some t := strptimeTs_canonical t hv
    simp [transformItem, hc]
  · intro h
    have hn : strptimeTs ts.data = none := h
    simp [transformItem, hn]
  · simp [get_alerts, hq]

/-- C4 witness: a canonical timestamp renders as ISO-8601 with `Z`, an
unparseable one becomes null, `record_id` is the stored filename,
`stress_score` the stored score, and the request returns 200. -/
theorem C4_query_transform_witness :
    (transformItem ⟨some (canonicalTs ⟨2025, 6, 1, 12, 30, 45⟩), some "f.csv",
        some 77⟩).timestamp = some "2025-06-01T12:30:45Z" ∧
    (transformItem ⟨some "not-a-date", some "f.csv", some 77⟩).record_id = "f.csv" ∧
    (transformItem ⟨some "not-a-date", some "f.csv", some 77⟩).stress_score = 77 ∧
    (transformItem ⟨some "not-a-date", some "f.csv", some 77⟩).timestamp = none ∧
    (get_alerts ⟨some [("source_file", "f.csv")]⟩
        (fun _ => [[⟨some "not-a-date", some "f.csv", some 77⟩]])).statusCode
      = 200 := by
  have h := C4_query_transform_contract "f.csv" "not-a-date" 77 ⟨2025, 6, 1, 12, 30, 45⟩
    [("source_file", "f.csv")] "f.csv"
    (fun _ => [[⟨some "not-a-date", some "f.csv", some 77⟩]]) rfl (by decide)
  refine ⟨?_, h.1, ?_, h.2.2.2.2.1 (by decide), h.2.2.2.2.2⟩
  · rw [h.2.2.2.1]
    rfl
  · rw [h.2.1]
    decide

end StressAlerts
